import Mathlib

/-!
Verification of the NovaPay fraud-detection web service (`webapp/app.py`).

The file embeds the request-preprocessing pipeline (`preprocess_input`), the
tiering logic and the `/predict` handler as executable Lean definitions over a
JSON-like value type, and proves the documented contracts about them.
Numbers are modelled as rationals; Python dictionaries that are only read and
written by key are modelled as shadowing association lists.
-/

namespace NovaPay

/-- A JSON-like raw value as received by the endpoint: a string, a boolean or
a number.  Numbers are modelled as rationals. -/
inductive Value where
  | str (s : String)
  | bool (b : Bool)
  | num (q : ℚ)
deriving DecidableEq, Repr

/-- Python `==` on raw values: numbers compare by value, and booleans compare
equal to the numbers 0 and 1 (in Python, `True == 1` holds); strings compare
equal only to identical strings. -/
def pyEq : Value → Value → Bool
  | .str x, .str y => decide (x = y)
  | .num x, .num y => decide (x = y)
  | .num x, .bool y => decide (x = (if y then 1 else 0))
  | .bool x, .num y => decide ((if x then (1 : ℚ) else 0) = y)
  | .bool x, .bool y => decide (x = y)
  | _, _ => false

/-- A raw request body: a JSON object, modelled as a key-value list.  Keys are
unique in a parsed JSON object; lookup takes the first match. -/
abbrev RawRequest := List (String × Value)

/-- Lookup `data.get(k)`: `none` when the key is absent. -/
def RawRequest.find (r : RawRequest) (k : String) : Option Value :=
  (List.find? (fun p => p.1 == k) r).map Prod.snd

/-- Value of a digit string, most significant digit first. -/
def digitsToNat (cs : List Char) : ℕ :=
  cs.foldl (fun n c => n * 10 + (c.toNat - 48)) 0

/-- Python `float(s)` on plain decimal literals: an optional sign, then an
integer part and/or a fractional part holding at least one digit in total.
Exponents, inf/nan, underscores and surrounding whitespace do not occur in
the inputs this service documents and are not modelled. -/
def strToFloat? (s : String) : Option ℚ :=
  let cs := s.toList
  let sign : ℚ := if cs.head? = some '-' then -1 else 1
  let rest := if cs.head? = some '-' ∨ cs.head? = some '+' then cs.drop 1 else cs
  let intPart := rest.takeWhile (fun c => c ≠ '.')
  let dotFrac := rest.dropWhile (fun c => c ≠ '.')
  let frac := dotFrac.drop 1
  if intPart.all Char.isDigit ∧ frac.all Char.isDigit ∧ (intPart ≠ [] ∨ frac ≠ [])
  then some (sign * ((digitsToNat intPart : ℚ) + (digitsToNat frac : ℚ) / (10 : ℚ) ^ frac.length))
  else none

/-- Python `float(v)` on a raw value: numbers pass through, booleans become
0/1, strings are parsed; a non-numeric string raises
`ValueError: could not convert string to float: <s>`, modelled as an
`Except.error` carrying that exception text. -/
def pyFloat : Value → Except String ℚ
  | .num q => .ok q
  | .bool b => .ok (if b then 1 else 0)
  | .str s =>
    match strToFloat? s with
    | some q => .ok q
    | none => .error ("could not convert string to float: \x27" ++ s ++ "\x27")

/-- The categorical lookup tables of `app.py`, in source order.  Codes are the
integers of the Python dicts, read as rationals. -/
def CATEGORICAL_MAPPINGS : List (String × List (Value × ℚ)) :=
  [("home_country", [(.str "CA", 0), (.str "UK", 1), (.str "US", 2)]),
   ("source_currency", [(.str "CAD", 0), (.str "GBP", 1), (.str "USD", 2)]),
   ("dest_currency", [(.str "CAD", 0), (.str "CNY", 1), (.str "EUR", 2), (.str "GBP", 3),
      (.str "INR", 4), (.str "MXN", 5), (.str "NGN", 6), (.str "PHP", 7), (.str "USD", 8)]),
   ("channel", [(.str "ATM", 0), (.str "MOBILE", 1), (.str "WEB", 2)]),
   ("ip_country", [(.str "CA", 0), (.str "UK", 1), (.str "US", 2)]),
   ("kyc_tier", [(.str "ENHANCED", 0), (.str "LOW", 1), (.str "STANDARD", 2)]),
   ("new_device", [(.bool false, 0), (.bool true, 1)]),
   ("days_only", [(.str "Friday", 0), (.str "Monday", 1), (.str "Saturday", 2), (.str "Sunday", 3),
      (.str "Thursday", 4), (.str "Tuesday", 5), (.str "Wednesday", 6)]),
   ("period_of_the_day", [(.str "Day", 0), (.str "Evening", 1), (.str "Late Night", 2), (.str "Night", 3)]),
   ("fee_bracket", [(.str "high risk", 0), (.str "no risk", 1)]),
   ("ip_risk_score_bracket", [(.str "high risk", 0), (.str "no risk", 1)]),
   ("device_trust_bucket", [(.str "high risk", 0), (.str "no risk", 1)])]

/-- The feature order expected by the model, exactly as listed in `app.py`. -/
def FEATURE_ORDER : List String :=
  ["home_country", "source_currency", "dest_currency", "channel",
   "amount_src", "amount_usd", "fee", "exchange_rate_src_to_dest",
   "new_device", "ip_country", "location_mismatch", "ip_risk_score",
   "kyc_tier", "account_age_days", "device_trust_score",
   "chargeback_history_count", "risk_score_internal", "txn_velocity_1h",
   "txn_velocity_24h", "corridor_risk", "days_only",
   "period_of_the_day", "fee_bracket", "ip_risk_score_bracket",
   "device_trust_bucket"]

/-- Robust-scaling parameters: field, median, iqr. -/
def ROBUST_SCALE_PARAMS : List (String × ℚ × ℚ) :=
  [("amount_src", 200, 300),
   ("amount_usd", 180, 280),
   ("fee", 4, 5),
   ("exchange_rate_src_to_dest", 1, 10),
   ("chargeback_history_count", 0, 1)]

/-- Standard-scaling parameters: field, mean, std. -/
def STANDARD_SCALE_PARAMS : List (String × ℚ × ℚ) :=
  [("ip_risk_score", 0.5, 0.25),
   ("account_age_days", 500, 300),
   ("device_trust_score", 0.65, 0.25)]

/-- The numeric fields coerced with `float(...)`, in loop order. -/
def numerical_features : List String :=
  ["amount_src", "amount_usd", "fee", "exchange_rate_src_to_dest",
   "ip_risk_score", "account_age_days", "device_trust_score",
   "chargeback_history_count", "risk_score_internal",
   "txn_velocity_1h", "txn_velocity_24h", "corridor_risk"]

/-- The `processed` dict of `preprocess_input`.  It is only ever read and
written by key, so a shadowing association list (newest entry first) models
the Python dict faithfully. -/
abbrev Processed := List (String × ℚ)

/-- Assignment `processed[k] = v` (insert or overwrite, by shadowing). -/
def setVal (m : Processed) (k : String) (v : ℚ) : Processed := (k, v) :: m

/-- Lookup `processed.get(k, d)`. -/
def getVal (m : Processed) (k : String) (d : ℚ) : ℚ :=
  ((List.find? (fun p => p.1 == k) m).map Prod.snd).getD d

/-- Lookup `mapping.get(value, 0)`, under Python equality. -/
def lookupMapping (mapping : List (Value × ℚ)) (v : Value) : ℚ :=
  ((List.find? (fun p => pyEq p.1 v) mapping).map Prod.snd).getD 0

/-- One iteration of the categorical-encoding loop: absent fields are skipped;
`new_device` first normalizes `value == \x27true\x27 or value == True` to a
boolean before the lookup. -/
def catStep (r : RawRequest) (m : Processed) (fm : String × List (Value × ℚ)) : Processed :=
  match r.find fm.1 with
  | none => m
  | some v =>
    let v := if fm.1 = "new_device"
             then Value.bool (pyEq v (.str "true") || pyEq v (.bool true))
             else v
    setVal m fm.1 (lookupMapping fm.2 v)

/-- The categorical-encoding loop over `CATEGORICAL_MAPPINGS`. -/
def encodeCategoricals (r : RawRequest) : Processed :=
  CATEGORICAL_MAPPINGS.foldl (catStep r) []

/-- Python `1 if data.get(location_mismatch) in [true-tokens] else 0`.
Membership in a Python list tests `==` against each element; an absent key
yields `None`, which matches nothing. -/
def locMismatch (r : RawRequest) : ℚ :=
  match r.find "location_mismatch" with
  | none => 0
  | some v =>
    if pyEq v (.str "true") || pyEq v (.bool true) || pyEq v (.num 1) || pyEq v (.str "1")
    then 1 else 0

/-- The numeric loop: `processed[f] = float(data.get(f, 0))` for each field in
turn; the first coercion failure aborts the whole preprocessing with that
exception. -/
def numFold (r : RawRequest) : List String → Processed → Except String Processed
  | [], m => .ok m
  | f :: t, m =>
    match pyFloat ((r.find f).getD (.num 0)) with
    | .error e => .error e
    | .ok q => numFold r t (setVal m f q)

/-- One scaling update: `(x - c) / s` guarded by `s != 0`, else 0.  Both the
robust and the standard loop have exactly this shape, with `(median, iqr)`
resp. `(mean, std)` as `(c, s)`. -/
def scaleStep (x c s : ℚ) : ℚ := if s ≠ 0 then (x - c) / s else 0

/-- A scaling loop over one parameter table.  The Python code indexes
`processed[f]` directly; every scaled field was set by the numeric loop
beforehand, so the 0 default of `getVal` is never consulted on that path. -/
def scalePass (tbl : List (String × ℚ × ℚ)) (m : Processed) : Processed :=
  tbl.foldl (fun m p => setVal m p.1 (scaleStep (getVal m p.1 0) p.2.1 p.2.2)) m

/-- Function `preprocess_input` from `webapp/app.py`: categorical encoding, the derived
`location_mismatch` flag, numeric coercion, robust then standard scaling, and
assembly of the vector in `FEATURE_ORDER` (`processed.get(f, 0)`). -/
def preprocess_input (data : RawRequest) : Except String (List ℚ) :=
  match numFold data numerical_features
      (setVal (encodeCategoricals data) "location_mismatch" (locMismatch data)) with
  | .error e => .error e
  | .ok m =>
    .ok (FEATURE_ORDER.map
      (fun f => getVal (scalePass STANDARD_SCALE_PARAMS (scalePass ROBUST_SCALE_PARAMS m)) f 0))

/-- The five risk tiers. -/
inductive RiskLevel where
  | CRITICAL
  | HIGH
  | MEDIUM
  | LOW
  | MINIMAL
deriving DecidableEq, Repr

/-- The tier cascade of the `/predict` handler, evaluated top-down. -/
def riskLevel (p : ℚ) : RiskLevel :=
  if p ≥ 0.7 then .CRITICAL
  else if p ≥ 0.5 then .HIGH
  else if p ≥ 0.3 then .MEDIUM
  else if p ≥ 0.1 then .LOW
  else .MINIMAL

/-- Tier name string as placed in the response. -/
def RiskLevel.name : RiskLevel → String
  | .CRITICAL => "CRITICAL"
  | .HIGH => "HIGH"
  | .MEDIUM => "MEDIUM"
  | .LOW => "LOW"
  | .MINIMAL => "MINIMAL"

/-- Tier display color as set alongside the tier in the handler. -/
def RiskLevel.color : RiskLevel → String
  | .CRITICAL => "#dc2626"
  | .HIGH => "#ea580c"
  | .MEDIUM => "#f59e0b"
  | .LOW => "#84cc16"
  | .MINIMAL => "#22c55e"

/-- A recommendation record: action label, explanatory text, icon glyph. -/
structure Recommendation where
  action : String
  details : String
  icon : String
deriving DecidableEq, Repr

/-- Function `get_recommendation`: pure lookup from the tier name, with the MEDIUM
record as the fallback of `recommendations.get` (the probability argument is
accepted and unused, as in the source). -/
def get_recommendation (risk_level : String) (_probability : ℚ) : Recommendation :=
  if risk_level = "CRITICAL" then
    ⟨"BLOCK TRANSACTION",
     "This transaction shows extremely high fraud indicators. Immediate blocking is recommended. Flag for manual review and contact customer for verification.",
     "🚫"⟩
  else if risk_level = "HIGH" then
    ⟨"HOLD FOR REVIEW",
     "Transaction flagged with high fraud probability. Place on hold and require additional verification before processing.",
     "⚠️"⟩
  else if risk_level = "LOW" then
    ⟨"PROCEED WITH CAUTION",
     "Low fraud indicators detected. Transaction can proceed but include in routine monitoring reports.",
     "✅"⟩
  else if risk_level = "MINIMAL" then
    ⟨"APPROVE",
     "Transaction appears legitimate with minimal risk indicators. Safe to process normally.",
     "✨"⟩
  else
    ⟨"ENHANCED MONITORING",
     "Transaction shows moderate risk signals. Proceed with enhanced monitoring and log for pattern analysis.",
     "👁️"⟩

/-- The unpickled model package: an abstract classifier exposed through its
positive-class probability on a feature vector, plus the two optional
threshold scalars. -/
structure ModelPackage where
  predict_proba_pos : List ℚ → ℚ
  best_threshold : Option ℚ
  default_threshold : Option ℚ

/-- Python `round(x, 2)`: nearest multiple of 1/100, ties to even (bankers
rounding; binary floating-point artifacts are not modelled). -/
def round2 (q : ℚ) : ℚ :=
  let y := q * 100
  let f := ⌊y⌋
  let n : ℤ :=
    if y - f < 1 / 2 then f
    else if y - f > 1 / 2 then f + 1
    else if Even f then f else f + 1
  (n : ℚ) / 100

/-- The JSON response of `/predict`, abstracted: a failure carries the HTTP
status and the `error` string of the `success: false` body; a success carries
the payload fields of the `success: true` body. -/
inductive PredictResult where
  | failure (status : ℕ) (error : String)
  | success (fraud_probability : ℚ) (is_fraud_prediction : Bool)
      (risk_level : String) (risk_color : String)
      (threshold_best : ℚ) (threshold_default : ℚ)
      (recommendation : Recommendation)
deriving DecidableEq, Repr

/-- The `/predict` handler: `request.json` is `none` for a malformed or empty
body (400, no further processing); with no loaded model the answer is 500;
otherwise the body is preprocessed (a coercion error is caught at the handler
boundary and surfaced as 400 with the exception text), scored, thresholded and
tiered. -/
def predict (model_package : Option ModelPackage) (data : Option RawRequest) : PredictResult :=
  match data with
  | none => .failure 400 "No JSON data received"
  | some data =>
    match model_package with
    | none => .failure 500 "Model not loaded. Please check if the model file exists."
    | some pkg =>
      match preprocess_input data with
      | .error e => .failure 400 e
      | .ok features =>
        let best := pkg.best_threshold.getD 0.5
        let dflt := pkg.default_threshold.getD 0.5
        let p := pkg.predict_proba_pos features
        let lvl := riskLevel p
        .success (round2 (p * 100)) (decide (p ≥ best)) lvl.name lvl.color
          (round2 (best * 100)) (round2 (dflt * 100)) (get_recommendation lvl.name p)

/-- Whether `pat` is a prefix of `s` (character lists). -/
def isPrefixAt : List Char → List Char → Bool
  | [], _ => true
  | _ :: _, [] => false
  | a :: as, b :: bs => a == b && isPrefixAt as bs

/-- Whether `pat` occurs contiguously inside `s` (character lists). -/
def containsChars (pat : List Char) : List Char → Bool
  | [] => isPrefixAt pat []
  | c :: t => isPrefixAt pat (c :: t) || containsChars pat t

/-- Whether `pat` occurs as a substring of `s`. -/
def containsStr (s pat : String) : Bool := containsChars pat.toList s.toList

/-! Lemmas about the processed-map operations and the loops built on them. -/

lemma getVal_setVal (m : Processed) (k k2 : String) (v d : ℚ) :
    getVal (setVal m k v) k2 d = if k2 = k then v else getVal m k2 d := by
  by_cases h : k2 = k
  · subst h
    simp [getVal, setVal]
  · rw [if_neg h]
    unfold getVal setVal
    rw [List.find?_cons_of_neg]
    simp only [beq_iff_eq]
    exact fun hc => h hc.symm

lemma numFold_ok_getVal (r : RawRequest) (qf : String → ℚ) (l : List String)
    (h : ∀ f ∈ l, pyFloat ((r.find f).getD (Value.num 0)) = Except.ok (qf f)) :
    ∀ m : Processed, ∃ m2, numFold r l m = Except.ok m2 ∧
      ∀ k d, getVal m2 k d = if k ∈ l then qf k else getVal m k d := by
  induction l with
  | nil => exact fun m => ⟨m, rfl, by simp⟩
  | cons f t ih =>
    intro m
    have hf : pyFloat ((r.find f).getD (Value.num 0)) = Except.ok (qf f) := h f (by simp)
    obtain ⟨m2, hm2, hget⟩ := ih (fun g hg => h g (by simp [hg])) (setVal m f (qf f))
    refine ⟨m2, ?_, ?_⟩
    · rw [numFold, hf]
      exact hm2
    · intro k d
      rw [hget k d, getVal_setVal]
      by_cases hkt : k ∈ t
      · simp [hkt]
      · by_cases hkf : k = f <;> simp [hkt, hkf]

lemma numFold_getVal_notin (r : RawRequest) (l : List String) (k : String) (d : ℚ) :
    ∀ m m2 : Processed, numFold r l m = Except.ok m2 → k ∉ l →
      getVal m2 k d = getVal m k d := by
  induction l with
  | nil =>
    intro m m2 h _
    simp only [numFold, Except.ok.injEq] at h
    rw [h]
  | cons f t ih =>
    intro m m2 h hk
    rw [numFold] at h
    cases hp : pyFloat ((r.find f).getD (Value.num 0)) with
    | error e => rw [hp] at h; cases h
    | ok q =>
      rw [hp] at h
      rw [ih (setVal m f q) m2 h (fun hkt => hk (List.mem_cons_of_mem f hkt)),
        getVal_setVal, if_neg (fun hkf => hk (by simp [hkf]))]

lemma numFold_ok_pyFloat (r : RawRequest) (l : List String) :
    ∀ m m2 : Processed, numFold r l m = Except.ok m2 →
      ∀ f ∈ l, ∃ q, pyFloat ((r.find f).getD (Value.num 0)) = Except.ok q := by
  induction l with
  | nil => intro m m2 _ f hf; cases hf
  | cons g t ih =>
    intro m m2 h f hf
    rw [numFold] at h
    cases hp : pyFloat ((r.find g).getD (Value.num 0)) with
    | error e => rw [hp] at h; cases h
    | ok q =>
      rw [hp] at h
      rcases List.mem_cons.mp hf with rfl | hft
      · exact ⟨q, hp⟩
      · exact ih _ _ h f hft

lemma getVal_scalePass_notin (tbl : List (String × ℚ × ℚ)) (k : String) (d : ℚ) :
    ∀ m, (∀ p ∈ tbl, p.1 ≠ k) → getVal (scalePass tbl m) k d = getVal m k d := by
  induction tbl with
  | nil => intro m _; rfl
  | cons p t ih =>
    intro m hk
    rw [show scalePass (p :: t) m
        = scalePass t (setVal m p.1 (scaleStep (getVal m p.1 0) p.2.1 p.2.2)) from rfl]
    rw [ih _ (fun q hq => hk q (by simp [hq])), getVal_setVal,
      if_neg (fun h => (hk p (by simp)) h.symm)]

lemma getVal_scalePass_mem (tbl : List (String × ℚ × ℚ)) (k : String) (c s : ℚ) :
    ∀ m, (tbl.map Prod.fst).Nodup → (k, c, s) ∈ tbl →
      getVal (scalePass tbl m) k 0 = scaleStep (getVal m k 0) c s := by
  induction tbl with
  | nil => intro m _ h; cases h
  | cons p t ih =>
    intro m hnd hmem
    simp only [List.map_cons, List.nodup_cons] at hnd
    rw [show scalePass (p :: t) m
        = scalePass t (setVal m p.1 (scaleStep (getVal m p.1 0) p.2.1 p.2.2)) from rfl]
    rcases List.mem_cons.mp hmem with heq | ht
    · have hp1 : p.1 = k := by rw [← heq]
      have hk : ∀ q ∈ t, q.1 ≠ k := by
        intro q hq hqk
        exact hnd.1 (hp1 ▸ hqk ▸ List.mem_map_of_mem Prod.fst hq)
      rw [getVal_scalePass_notin t k 0 _ hk, getVal_setVal, if_pos hp1.symm, hp1]
      rw [← heq]
    · have hp1 : p.1 ≠ k := by
        intro hpk
        exact hnd.1 (hpk ▸ List.mem_map_of_mem Prod.fst ht)
      rw [ih _ hnd.2 ht, getVal_setVal, if_neg (fun h => hp1 h.symm)]

lemma getVal_catStep_other (r : RawRequest) (m : Processed)
    (fm : String × List (Value × ℚ)) (k : String) (hk : fm.1 ≠ k) (d : ℚ) :
    getVal (catStep r m fm) k d = getVal m k d := by
  cases hf : r.find fm.1 with
  | none => simp [catStep, hf]
  | some v => simp [catStep, hf, getVal_setVal, Ne.symm hk]

lemma getVal_catFold_notin (r : RawRequest) (L : List (String × List (Value × ℚ)))
    (k : String) (d : ℚ) :
    ∀ m, (∀ p ∈ L, p.1 ≠ k) → getVal (L.foldl (catStep r) m) k d = getVal m k d := by
  induction L with
  | nil => intro m _; rfl
  | cons p t ih =>
    intro m hk
    rw [List.foldl_cons, ih _ (fun q hq => hk q (List.mem_cons_of_mem p hq)),
      getVal_catStep_other r m p k (hk p (List.mem_cons_self p t)) d]

/-- The first six categorical mappings (before `new_device`). -/
def catPre : List (String × List (Value × ℚ)) := CATEGORICAL_MAPPINGS.take 6

/-- The five categorical mappings after `new_device`. -/
def catPost : List (String × List (Value × ℚ)) := CATEGORICAL_MAPPINGS.drop 7

/-- The `new_device` lookup table. -/
def ndMap : List (Value × ℚ) := [(.bool false, 0), (.bool true, 1)]

lemma catSplit : CATEGORICAL_MAPPINGS = catPre ++ ("new_device", ndMap) :: catPost := rfl

/-- The `new_device` slot of the categorical pass: absent gives the assembly
default; a present value encodes to 1 exactly when the normalization
`value == "true" or value == True` yields true. -/
lemma encodeCategoricals_new_device (r : RawRequest) (d : ℚ) :
    getVal (encodeCategoricals r) "new_device" d =
      match r.find "new_device" with
      | none => d
      | some v => if pyEq v (.str "true") || pyEq v (.bool true) then 1 else 0 := by
  rw [encodeCategoricals, catSplit, List.foldl_append, List.foldl_cons,
    getVal_catFold_notin r catPost "new_device" d _ (by decide)]
  cases hf : r.find "new_device" with
  | none =>
    simp only [catStep, hf]
    rw [getVal_catFold_notin r catPre "new_device" d [] (by decide)]
    rfl
  | some v =>
    simp only [catStep, hf, if_pos rfl]
    rw [getVal_setVal, if_pos rfl]
    cases hb : (pyEq v (.str "true") || pyEq v (.bool true)) <;> rfl

lemma encodeCategoricals_new_device_none (r : RawRequest) (d : ℚ)
    (hf : r.find "new_device" = none) :
    getVal (encodeCategoricals r) "new_device" d = d := by
  rw [encodeCategoricals_new_device r d, hf]

lemma encodeCategoricals_new_device_some (r : RawRequest) (d : ℚ) (w : Value)
    (hf : r.find "new_device" = some w) :
    getVal (encodeCategoricals r) "new_device" d
      = if (pyEq w (.str "true") || pyEq w (.bool true)) then 1 else 0 := by
  rw [encodeCategoricals_new_device r d, hf]

lemma preprocess_input_ok (r : RawRequest) (m2 : Processed)
    (h : numFold r numerical_features
        (setVal (encodeCategoricals r) "location_mismatch" (locMismatch r)) = Except.ok m2) :
    preprocess_input r = Except.ok (FEATURE_ORDER.map
      (fun f => getVal (scalePass STANDARD_SCALE_PARAMS (scalePass ROBUST_SCALE_PARAMS m2)) f 0)) := by
  unfold preprocess_input
  rw [h]

lemma preprocess_input_elim (r : RawRequest) (v : List ℚ) (h : preprocess_input r = Except.ok v) :
    ∃ m2, numFold r numerical_features
        (setVal (encodeCategoricals r) "location_mismatch" (locMismatch r)) = Except.ok m2 ∧
      v = FEATURE_ORDER.map
        (fun f => getVal (scalePass STANDARD_SCALE_PARAMS (scalePass ROBUST_SCALE_PARAMS m2)) f 0) := by
  unfold preprocess_input at h
  cases hn : numFold r numerical_features
      (setVal (encodeCategoricals r) "location_mismatch" (locMismatch r)) with
  | error e => rw [hn] at h; cases h
  | ok m2 =>
    rw [hn] at h
    injection h with h2
    exact ⟨m2, rfl, h2.symm⟩

/-- Success of the whole encoder is exactly success of all 12 numeric
coercions: categorical content never decides it. -/
lemma preprocess_ok_iff (r : RawRequest) :
    (∃ v, preprocess_input r = Except.ok v) ↔
      ∀ f ∈ numerical_features, ∃ q, pyFloat ((r.find f).getD (Value.num 0)) = Except.ok q := by
  constructor
  · rintro ⟨v, hv⟩ f hf
    obtain ⟨m2, hm2, _⟩ := preprocess_input_elim r v hv
    exact numFold_ok_pyFloat r numerical_features _ m2 hm2 f hf
  · intro h
    obtain ⟨m2, hm2, _⟩ := numFold_ok_getVal r
        (fun f => ((pyFloat ((r.find f).getD (Value.num 0))).toOption).getD 0)
        numerical_features
        (by
          intro f hf
          obtain ⟨q, hq⟩ := h f hf
          show pyFloat ((r.find f).getD (Value.num 0))
              = Except.ok ((pyFloat ((r.find f).getD (Value.num 0))).toOption.getD 0)
          rw [hq]
          rfl)
        (setVal (encodeCategoricals r) "location_mismatch" (locMismatch r))
    exact ⟨_, preprocess_input_ok r m2 hm2⟩

/-- An unmatched token falls back to code 0 in a categorical lookup. -/
lemma lookupMapping_unmatched (mp : List (Value × ℚ)) (w : Value)
    (h : ∀ p ∈ mp, pyEq p.1 w = false) : lookupMapping mp w = 0 := by
  unfold lookupMapping
  rw [List.find?_eq_none.mpr (fun p hp => by simp [h p hp])]
  rfl

/-- Reading one named slot of the assembled vector. -/
lemma vector_slot (m : Processed) (i : ℕ) (f : String) (hf : FEATURE_ORDER[i]? = some f) :
    (FEATURE_ORDER.map (fun g => getVal m g 0))[i]? = some (getVal m f 0) := by
  rw [List.getElem?_map, hf]
  rfl

/-- A field that is neither numeric nor scaled keeps, in the final map, the
value it had after the categorical and location-mismatch steps. -/
lemma final_getVal_nonnumeric (r : RawRequest) (m2 : Processed)
    (hm2 : numFold r numerical_features
        (setVal (encodeCategoricals r) "location_mismatch" (locMismatch r)) = Except.ok m2)
    (k : String) (hk1 : k ∉ numerical_features)
    (hk2 : ∀ p ∈ ROBUST_SCALE_PARAMS, p.1 ≠ k)
    (hk3 : ∀ p ∈ STANDARD_SCALE_PARAMS, p.1 ≠ k) (d : ℚ) :
    getVal (scalePass STANDARD_SCALE_PARAMS (scalePass ROBUST_SCALE_PARAMS m2)) k d
      = getVal (setVal (encodeCategoricals r) "location_mismatch" (locMismatch r)) k d := by
  rw [getVal_scalePass_notin _ _ _ _ hk3, getVal_scalePass_notin _ _ _ _ hk2,
    numFold_getVal_notin r numerical_features k d _ m2 hm2 hk1]

lemma numFold_cons_error (r : RawRequest) (f : String) (t : List String) (m : Processed)
    (e : String) (h : pyFloat ((r.find f).getD (Value.num 0)) = Except.error e) :
    numFold r (f :: t) m = Except.error e := by
  rw [numFold, h]

lemma locMismatch_none (r : RawRequest) (hf : r.find "location_mismatch" = none) :
    locMismatch r = 0 := by
  unfold locMismatch
  rw [hf]

lemma locMismatch_some (r : RawRequest) (w : Value) (hf : r.find "location_mismatch" = some w) :
    locMismatch r = if (pyEq w (.str "true") || pyEq w (.bool true)
      || pyEq w (.num 1) || pyEq w (.str "1")) then 1 else 0 := by
  unfold locMismatch
  rw [hf]

lemma locMismatch_cases (r : RawRequest) : locMismatch r = 1 ∨ locMismatch r = 0 := by
  rcases hf : r.find "location_mismatch" with _ | w
  · exact Or.inr (locMismatch_none r hf)
  · rw [locMismatch_some r w hf]
    by_cases hw : (pyEq w (.str "true") || pyEq w (.bool true)
        || pyEq w (.num 1) || pyEq w (.str "1")) = true
    · rw [if_pos hw]
      exact Or.inl rfl
    · rw [if_neg hw]
      exact Or.inr rfl

/-- The membership test of the location-mismatch line, characterized: exactly
the string "true", boolean true, the number 1, and the string "1" pass. -/
lemma locTruthy_iff (w : Value) :
    (pyEq w (.str "true") || pyEq w (.bool true)
      || pyEq w (.num 1) || pyEq w (.str "1")) = true ↔
      (w = Value.str "true" ∨ w = Value.bool true ∨ w = Value.num 1 ∨ w = Value.str "1") := by
  rcases w with s | b | q
  · simp [pyEq]
  · cases b <;> simp [pyEq]
  · simp [pyEq]

lemma locMismatch_eq_one_iff (r : RawRequest) :
    locMismatch r = 1 ↔
      (r.find "location_mismatch" = some (Value.str "true")
       ∨ r.find "location_mismatch" = some (Value.bool true)
       ∨ r.find "location_mismatch" = some (Value.num 1)
       ∨ r.find "location_mismatch" = some (Value.str "1")) := by
  rcases hf : r.find "location_mismatch" with _ | w
  · rw [locMismatch_none r hf]
    simp
  · rw [locMismatch_some r w hf]
    simp only [Option.some.injEq]
    by_cases hw : (pyEq w (.str "true") || pyEq w (.bool true)
        || pyEq w (.num 1) || pyEq w (.str "1")) = true
    · rw [if_pos hw]
      exact iff_of_true rfl ((locTruthy_iff w).mp hw)
    · rw [if_neg hw]
      refine iff_of_false (by norm_num) ?_
      intro hd
      exact hw ((locTruthy_iff w).mpr hd)

/-- The new-device normalization, characterized: exactly the string "true",
boolean true, and the number 1 normalize to true (Python == identifies True
with the number 1). -/
lemma newDeviceTruthy_iff (w : Value) :
    (pyEq w (.str "true") || pyEq w (.bool true)) = true ↔
      (w = Value.str "true" ∨ w = Value.bool true ∨ w = Value.num 1) := by
  rcases w with s | b | q
  · simp [pyEq]
  · cases b <;> simp [pyEq]
  · simp [pyEq]

/-- A concrete model package for exercising the handler: a constant-probability
classifier with no stored thresholds. -/
def constPkg : ModelPackage := ⟨fun _ => 0, none, none⟩

/-! The claims. -/

/-- C1 counterexample: the claim "exactly 24 values" is false — already on the
empty request the encoder succeeds with a vector of 25 values. -/
theorem C1_counterexample :
    ∃ v, preprocess_input [] = Except.ok v ∧ v.length = 25 ∧ v.length ≠ 24 := by
  refine ⟨_, rfl, ?_, ?_⟩ <;> decide

/-- C1 amended: for every raw request on which the encoder succeeds, the
result has exactly 25 values — one value per name of `FEATURE_ORDER`, read in
that fixed order through a single per-request valuation, whatever fields are
present in the request. -/
theorem C1_vector_shape (r : RawRequest) (v : List ℚ) (h : preprocess_input r = Except.ok v) :
    v.length = 25 ∧ ∃ g : String → ℚ, v = FEATURE_ORDER.map g := by
  obtain ⟨m2, _, hv⟩ := preprocess_input_elim r v h
  subst hv
  exact ⟨by rw [List.length_map]; rfl, ⟨_, rfl⟩⟩

theorem C1_vector_shape_witness :
    ∃ v, preprocess_input [] = Except.ok v ∧ v.length = 25 :=
  ⟨_, rfl, (C1_vector_shape [] _ rfl).1⟩

/-- C2: the tier cascade realizes first-match bands with inclusive lower
bounds — CRITICAL on [0.70, ∞), HIGH on [0.50, 0.70), MEDIUM on [0.30, 0.50),
LOW on [0.10, 0.30), MINIMAL below 0.10 — and in particular 0.70 is CRITICAL,
0.50 HIGH, 0.30 MEDIUM, 0.10 LOW and 0.0999 MINIMAL. -/
theorem C2_tier_bands :
    (∀ p : ℚ,
      (riskLevel p = RiskLevel.CRITICAL ↔ 0.7 ≤ p)
      ∧ (riskLevel p = RiskLevel.HIGH ↔ 0.5 ≤ p ∧ p < 0.7)
      ∧ (riskLevel p = RiskLevel.MEDIUM ↔ 0.3 ≤ p ∧ p < 0.5)
      ∧ (riskLevel p = RiskLevel.LOW ↔ 0.1 ≤ p ∧ p < 0.3)
      ∧ (riskLevel p = RiskLevel.MINIMAL ↔ p < 0.1))
    ∧ riskLevel 0.7 = RiskLevel.CRITICAL
    ∧ riskLevel 0.5 = RiskLevel.HIGH
    ∧ riskLevel 0.3 = RiskLevel.MEDIUM
    ∧ riskLevel 0.1 = RiskLevel.LOW
    ∧ riskLevel 0.0999 = RiskLevel.MINIMAL := by
  have hb : ∀ p : ℚ,
      (riskLevel p = RiskLevel.CRITICAL ↔ 0.7 ≤ p)
      ∧ (riskLevel p = RiskLevel.HIGH ↔ 0.5 ≤ p ∧ p < 0.7)
      ∧ (riskLevel p = RiskLevel.MEDIUM ↔ 0.3 ≤ p ∧ p < 0.5)
      ∧ (riskLevel p = RiskLevel.LOW ↔ 0.1 ≤ p ∧ p < 0.3)
      ∧ (riskLevel p = RiskLevel.MINIMAL ↔ p < 0.1) := by
    intro p
    unfold riskLevel
    split_ifs with h1 h2 h3 h4 <;>
      refine ⟨?_, ?_, ?_, ?_, ?_⟩ <;> constructor <;> intro hx <;>
      simp_all <;> try linarith
  exact ⟨hb, (hb 0.7).1.mpr (by norm_num), (hb 0.5).2.1.mpr (by norm_num),
    (hb 0.3).2.2.1.mpr (by norm_num), (hb 0.1).2.2.2.1.mpr (by norm_num),
    (hb 0.0999).2.2.2.2.mpr (by norm_num)⟩

/-- C3 counterexample: the claim "total, never raises" is false — a
non-numeric string in the numeric field amount_src makes the encoder raise
(modelled: return the ValueError text) instead of coercing to a default. -/
theorem C3_counterexample :
    preprocess_input [("amount_src", Value.str "abc")]
      = Except.error "could not convert string to float: \x27abc\x27" := by
  rfl

/-- C3 amended: the encoder succeeds exactly when all 12 designated numeric
fields coerce; missing fields and arbitrary (even invalid) categorical values
never make it fail, while a non-coercible numeric value always does. -/
theorem C3_totality (r : RawRequest) :
    (∃ v, preprocess_input r = Except.ok v) ↔
      ∀ f ∈ numerical_features, ∃ q, pyFloat ((r.find f).getD (Value.num 0)) = Except.ok q :=
  preprocess_ok_iff r

theorem C3_totality_witness :
    ∃ v, preprocess_input [("home_country", Value.bool true), ("fee", Value.str "2.5")]
      = Except.ok v := by
  refine (C3_totality _).mpr ?_
  intro f hf
  unfold numerical_features at hf
  fin_cases hf <;> exact ⟨_, rfl⟩

/-- C8 counterexample: with no model loaded, a malformed (empty) JSON body is
still answered 400 with the no-JSON error, so not every call fails with
status 500. -/
theorem C8_counterexample :
    predict none none = PredictResult.failure 400 "No JSON data received"
      ∧ (400 : ℕ) ≠ 500 :=
  ⟨rfl, by decide⟩

/-- C8 amended: with no model package loaded, every call carrying a
well-formed JSON body — whatever its content — is answered status 500 with
the model-not-loaded error. -/
theorem C8_model_unavailable (r : RawRequest) :
    predict none (some r)
      = PredictResult.failure 500 "Model not loaded. Please check if the model file exists." :=
  rfl

/-- C4 counterexample: with a loaded model, amount_src = "abc" is answered 400
and the error is the propagated Python exception text, which names the
offending value but does not contain the field name amount_src. -/
theorem C4_counterexample :
    predict (some constPkg) (some [("amount_src", Value.str "abc")])
        = PredictResult.failure 400 "could not convert string to float: \x27abc\x27"
      ∧ containsStr "could not convert string to float: \x27abc\x27" "amount_src" = false :=
  ⟨rfl, by decide⟩

/-- C4 amended: a numeric field whose string value cannot be coerced makes the
whole encode fail, and the handler surfaces that as a 400 response with
success false whose error is the exception text — which names the offending
raw value, not the field. -/
theorem C4_invalid_numeric :
    (∀ (pkg : ModelPackage) (r : RawRequest) (e : String),
        preprocess_input r = Except.error e →
        predict (some pkg) (some r) = PredictResult.failure 400 e)
    ∧ ∀ s : String, strToFloat? s = none →
        preprocess_input [("amount_src", Value.str s)]
          = Except.error ("could not convert string to float: \x27" ++ s ++ "\x27") := by
  constructor
  · intro pkg r e h
    simp only [predict, h]
  · intro s hs
    have hfl : pyFloat ((RawRequest.find [("amount_src", Value.str s)] "amount_src").getD
          (Value.num 0))
        = Except.error ("could not convert string to float: \x27" ++ s ++ "\x27") := by
      show pyFloat (Value.str s) = _
      simp only [pyFloat, hs]
    unfold preprocess_input
    rw [show numerical_features = "amount_src" ::
        ["amount_usd", "fee", "exchange_rate_src_to_dest", "ip_risk_score", "account_age_days",
         "device_trust_score", "chargeback_history_count", "risk_score_internal",
         "txn_velocity_1h", "txn_velocity_24h", "corridor_risk"] from rfl]
    rw [numFold_cons_error _ _ _ _ _ hfl]

theorem C4_invalid_numeric_witness :
    predict (some constPkg) (some [("amount_src", Value.str "xyz")])
      = PredictResult.failure 400 ("could not convert string to float: \x27" ++ "xyz" ++ "\x27") :=
  C4_invalid_numeric.1 constPkg _ _ (C4_invalid_numeric.2 "xyz" rfl)

/-- C5: an unrecognized categorical token never makes the encoder fail
(success depends only on the numeric coercions), every categorical lookup
falls back to code 0 on a token matching no table entry, and concretely
home_country = "ZZ" encodes to 0 in slot 0. -/
theorem C5_unknown_token_fallback :
    (∀ r : RawRequest,
        (∀ f ∈ numerical_features, ∃ q, pyFloat ((r.find f).getD (Value.num 0)) = Except.ok q) →
        ∃ v, preprocess_input r = Except.ok v)
    ∧ (∀ fm ∈ CATEGORICAL_MAPPINGS, ∀ w : Value,
        (∀ p ∈ fm.2, pyEq p.1 w = false) → lookupMapping fm.2 w = 0)
    ∧ ∃ v, preprocess_input [("home_country", Value.str "ZZ")] = Except.ok v ∧
        v[0]? = some 0 := by
  refine ⟨fun r h => (preprocess_ok_iff r).mpr h,
    fun fm _ w hw => lookupMapping_unmatched fm.2 w hw, ⟨_, rfl, rfl⟩⟩

theorem C5_unknown_token_fallback_witness :
    (∃ v, preprocess_input [("home_country", Value.str "ZZ"), ("channel", Value.num 3)]
        = Except.ok v)
    ∧ lookupMapping [(Value.str "CA", 0), (Value.str "UK", 1), (Value.str "US", 2)]
        (Value.str "ZZ") = 0 := by
  constructor
  · refine C5_unknown_token_fallback.1 _ ?_
    intro f hf
    unfold numerical_features at hf
    fin_cases hf <;> exact ⟨_, rfl⟩
  · exact C5_unknown_token_fallback.2.1
      ("home_country", [(Value.str "CA", 0), (Value.str "UK", 1), (Value.str "US", 2)])
      (by decide) (Value.str "ZZ") (by decide)

/-- C6: each robust-scaled slot equals (value - median) / iqr with the shipped
parameter table, the guard forces the scaled value to 0 whenever the iqr
parameter is 0, and amount_src = 500 scales to (500 - 200) / 300 = 1
exactly. -/
theorem C6_robust_scaling (r : RawRequest) (qf : String → ℚ)
    (h : ∀ f ∈ numerical_features, pyFloat ((r.find f).getD (Value.num 0)) = Except.ok (qf f)) :
    (∃ v, preprocess_input r = Except.ok v ∧
      v[4]? = some ((qf "amount_src" - 200) / 300) ∧
      v[5]? = some ((qf "amount_usd" - 180) / 280) ∧
      v[6]? = some ((qf "fee" - 4) / 5) ∧
      v[7]? = some ((qf "exchange_rate_src_to_dest" - 1) / 10) ∧
      v[15]? = some ((qf "chargeback_history_count" - 0) / 1))
    ∧ (∀ x c : ℚ, scaleStep x c 0 = 0)
    ∧ scaleStep 500 200 300 = 1 := by
  obtain ⟨m2, hm2, hget⟩ := numFold_ok_getVal r qf numerical_features h
    (setVal (encodeCategoricals r) "location_mismatch" (locMismatch r))
  have slot : ∀ (f : String) (c s : ℚ), (f, c, s) ∈ ROBUST_SCALE_PARAMS →
      (∀ p ∈ STANDARD_SCALE_PARAMS, p.1 ≠ f) → f ∈ numerical_features → s ≠ 0 →
      getVal (scalePass STANDARD_SCALE_PARAMS (scalePass ROBUST_SCALE_PARAMS m2)) f 0
        = (qf f - c) / s := by
    intro f c s hmem hstd hnum hs
    rw [getVal_scalePass_notin _ _ _ _ hstd,
      getVal_scalePass_mem ROBUST_SCALE_PARAMS f c s _ (by decide) hmem,
      hget f 0, if_pos hnum]
    unfold scaleStep
    rw [if_pos hs]
  refine ⟨⟨_, preprocess_input_ok r m2 hm2, ?_, ?_, ?_, ?_, ?_⟩, ?_, ?_⟩
  · rw [vector_slot _ 4 "amount_src" rfl,
      slot "amount_src" 200 300 (by decide) (by decide) (by decide) (by norm_num)]
  · rw [vector_slot _ 5 "amount_usd" rfl,
      slot "amount_usd" 180 280 (by decide) (by decide) (by decide) (by norm_num)]
  · rw [vector_slot _ 6 "fee" rfl,
      slot "fee" 4 5 (by decide) (by decide) (by decide) (by norm_num)]
  · rw [vector_slot _ 7 "exchange_rate_src_to_dest" rfl,
      slot "exchange_rate_src_to_dest" 1 10 (by decide) (by decide) (by decide) (by norm_num)]
  · rw [vector_slot _ 15 "chargeback_history_count" rfl,
      slot "chargeback_history_count" 0 1 (by decide) (by decide) (by decide) (by norm_num)]
  · intro x c
    simp [scaleStep]
  · norm_num [scaleStep]

theorem C6_robust_scaling_witness :
    ∃ v, preprocess_input [("amount_src", Value.num 500)] = Except.ok v ∧ v[4]? = some 1 := by
  obtain ⟨⟨v, hv, h4, _, _, _, _⟩, _, _⟩ := C6_robust_scaling [("amount_src", Value.num 500)]
    (fun f => if f = "amount_src" then 500 else 0)
    (by
      intro f hf
      unfold numerical_features at hf
      fin_cases hf <;> rfl)
  refine ⟨v, hv, ?_⟩
  rw [h4]
  norm_num

/-- C7: the location_mismatch slot (index 10) is always 0 or 1, and it is 1
exactly when the raw value is the string "true", boolean true, the number 1
or the string "1" — every other value, and a missing field, gives 0. -/
theorem C7_location_mismatch (r : RawRequest) (v : List ℚ)
    (h : preprocess_input r = Except.ok v) :
    (v[10]? = some 1 ∨ v[10]? = some 0)
    ∧ (v[10]? = some 1 ↔
        (r.find "location_mismatch" = some (Value.str "true")
         ∨ r.find "location_mismatch" = some (Value.bool true)
         ∨ r.find "location_mismatch" = some (Value.num 1)
         ∨ r.find "location_mismatch" = some (Value.str "1"))) := by
  obtain ⟨m2, hm2, hv⟩ := preprocess_input_elim r v h
  subst hv
  rw [vector_slot _ 10 "location_mismatch" rfl,
    final_getVal_nonnumeric r m2 hm2 "location_mismatch" (by decide) (by decide) (by decide) 0,
    getVal_setVal, if_pos rfl]
  constructor
  · rcases locMismatch_cases r with h1 | h0
    · rw [h1]
      exact Or.inl rfl
    · rw [h0]
      exact Or.inr rfl
  · simp only [Option.some.injEq]
    exact locMismatch_eq_one_iff r

theorem C7_location_mismatch_witness :
    ∃ v, preprocess_input [("location_mismatch", Value.str "1")] = Except.ok v ∧
      (v[10]? = some 1 ∨ v[10]? = some 0) :=
  ⟨_, rfl, (C7_location_mismatch [("location_mismatch", Value.str "1")] _ rfl).1⟩

/-- C9 counterexample: new_device holding the number 1 — which is neither the
string "true" nor boolean true — still encodes to 1 (Python == identifies
True with 1), where the claim requires 0. -/
theorem C9_counterexample :
    ∃ v, preprocess_input [("new_device", Value.num 1)] = Except.ok v ∧
      v[8]? = some 1
      ∧ Value.num 1 ≠ Value.str "true" ∧ Value.num 1 ≠ Value.bool true := by
  refine ⟨_, rfl, rfl, by decide, by decide⟩

/-- C9 amended: the raw new_device value normalizes to boolean true exactly
when it is Python-equal to the string "true" or to True — that is, the string
"true", boolean true, or the number 1 — and the slot (index 8) is the mapped
code 1 for those and 0 for every other value and for a missing field. -/
theorem C9_new_device (r : RawRequest) (v : List ℚ)
    (h : preprocess_input r = Except.ok v) :
    (v[8]? = some 1 ∨ v[8]? = some 0)
    ∧ (v[8]? = some 1 ↔
        (r.find "new_device" = some (Value.str "true")
         ∨ r.find "new_device" = some (Value.bool true)
         ∨ r.find "new_device" = some (Value.num 1))) := by
  obtain ⟨m2, hm2, hv⟩ := preprocess_input_elim r v h
  subst hv
  rw [vector_slot _ 8 "new_device" rfl,
    final_getVal_nonnumeric r m2 hm2 "new_device" (by decide) (by decide) (by decide) 0,
    getVal_setVal, if_neg (by decide)]
  rcases hf : r.find "new_device" with _ | w
  · rw [encodeCategoricals_new_device_none r 0 hf]
    refine ⟨Or.inr rfl, ?_⟩
    simp
  · rw [encodeCategoricals_new_device_some r 0 w hf]
    by_cases hw : (pyEq w (.str "true") || pyEq w (.bool true)) = true
    · rw [if_pos hw]
      refine ⟨Or.inl rfl, iff_of_true rfl ?_⟩
      rcases (newDeviceTruthy_iff w).mp hw with rfl | rfl | rfl
      · exact Or.inl rfl
      · exact Or.inr (Or.inl rfl)
      · exact Or.inr (Or.inr rfl)
    · rw [if_neg hw]
      refine ⟨Or.inr rfl, iff_of_false (by simp) ?_⟩
      intro hd
      simp only [Option.some.injEq] at hd
      exact hw ((newDeviceTruthy_iff w).mpr hd)

theorem C9_new_device_witness :
    ∃ v, preprocess_input [("new_device", Value.bool true)] = Except.ok v ∧
      (v[8]? = some 1 ∨ v[8]? = some 0) :=
  ⟨_, rfl, (C9_new_device [("new_device", Value.bool true)] _ rfl).1⟩

/-- C10: the four pass-through numeric slots (risk_score_internal at 16,
txn_velocity_1h at 17, txn_velocity_24h at 18, corridor_risk at 19) hold the
raw coerced values with no scaling applied, and a missing numeric field
coerces to 0. -/
theorem C10_passthrough (r : RawRequest) (qf : String → ℚ)
    (h : ∀ f ∈ numerical_features, pyFloat ((r.find f).getD (Value.num 0)) = Except.ok (qf f)) :
    ∃ v, preprocess_input r = Except.ok v ∧
      v[16]? = some (qf "risk_score_internal") ∧
      v[17]? = some (qf "txn_velocity_1h") ∧
      v[18]? = some (qf "txn_velocity_24h") ∧
      v[19]? = some (qf "corridor_risk") ∧
      ∀ f ∈ numerical_features, r.find f = none → qf f = 0 := by
  obtain ⟨m2, hm2, hget⟩ := numFold_ok_getVal r qf numerical_features h
    (setVal (encodeCategoricals r) "location_mismatch" (locMismatch r))
  have slot : ∀ f : String, f ∈ numerical_features →
      (∀ p ∈ ROBUST_SCALE_PARAMS, p.1 ≠ f) → (∀ p ∈ STANDARD_SCALE_PARAMS, p.1 ≠ f) →
      getVal (scalePass STANDARD_SCALE_PARAMS (scalePass ROBUST_SCALE_PARAMS m2)) f 0
        = qf f := by
    intro f hnum hrob hstd
    rw [getVal_scalePass_notin _ _ _ _ hstd, getVal_scalePass_notin _ _ _ _ hrob,
      hget f 0, if_pos hnum]
  refine ⟨_, preprocess_input_ok r m2 hm2, ?_, ?_, ?_, ?_, ?_⟩
  · rw [vector_slot _ 16 "risk_score_internal" rfl,
      slot "risk_score_internal" (by decide) (by decide) (by decide)]
  · rw [vector_slot _ 17 "txn_velocity_1h" rfl,
      slot "txn_velocity_1h" (by decide) (by decide) (by decide)]
  · rw [vector_slot _ 18 "txn_velocity_24h" rfl,
      slot "txn_velocity_24h" (by decide) (by decide) (by decide)]
  · rw [vector_slot _ 19 "corridor_risk" rfl,
      slot "corridor_risk" (by decide) (by decide) (by decide)]
  · intro f hf hnone
    have hq := h f hf
    rw [hnone, Option.getD_none] at hq
    have h0 : (Except.ok 0 : Except String ℚ) = Except.ok (qf f) := hq
    injection h0 with h0
    exact h0.symm

theorem C10_passthrough_witness :
    ∃ v, preprocess_input [("corridor_risk", Value.num 7)] = Except.ok v ∧
      v[19]? = some 7 := by
  obtain ⟨v, hv, _, _, _, h19, _⟩ := C10_passthrough [("corridor_risk", Value.num 7)]
    (fun f => if f = "corridor_risk" then 7 else 0)
    (by
      intro f hf
      unfold numerical_features at hf
      fin_cases hf <;> rfl)
  refine ⟨v, hv, ?_⟩
  rw [h19]
  norm_num

end NovaPay
